import Mathlib

/-!
Verification development for the Azure DevOps MCP HTTP server.

The definitions below are a shallow embedding of the TypeScript sources:

* `src/auth.ts` — the authentication gateway (`AuthService`): PAT and OAuth
  middleware, the generic scheme-cascading entry point, and the OAuth
  initiate/callback flow.
* `src/http-server.ts` — the single-shot MCP endpoint: empty-body handshake,
  delegation of one inbound JSON-RPC message to a freshly constructed MCP
  server through a synthetic in-process transport, and the resolution cascade
  over the captured response/error buffers.
* `src/http-transport.ts` — the SSE stream transport (`HttpTransport`):
  `send` and idempotent `close`.

External collaborators (the jsonwebtoken library, the remote Azure DevOps
validation call, the token-exchange endpoint, URI-component encoding, clocks)
are modelled as explicit environment records passed to the functions that the
source code lets perform those effects.  JavaScript truthiness on strings
(absent or empty both falsy) is modelled with `Option String` plus emptiness
checks.
-/

namespace AzdoMcp

/-- Minimal JSON value model (numbers restricted to integers, which covers
every literal appearing in the embedded code paths). -/
inductive Json where
  | null : Json
  | bool (b : Bool) : Json
  | num (n : Int) : Json
  | str (s : String) : Json
  | arr (xs : List Json) : Json
  | obj (fields : List (String × Json)) : Json

/-- Field lookup on a JSON object, `none` on non-objects or missing keys. -/
def jgetField (m : Json) (k : String) : Option Json :=
  match m with
  | .obj fields => fields.lookup k
  | _ => none

/-- Boolean prefix test on character lists (structurally recursive so that it
evaluates by kernel reduction). -/
def listPfx : List Char → List Char → Bool
  | [], _ => true
  | _ :: _, [] => false
  | a :: as, b :: bs => a = b && listPfx as bs

/-- String prefix test, modelling JavaScript `String.prototype.startsWith`. -/
def strPfx (p s : String) : Bool := listPfx p.data s.data

/-- Drop the first `n` UTF-16 units of an ASCII-prefixed string, modelling
JavaScript `String.prototype.substring(n)` as used on `Bearer `-prefixed
headers. -/
def strDropN (n : Nat) (s : String) : String := String.mk (s.data.drop n)

/-- JavaScript truthiness of an optional string header/field: absent and empty
are both falsy. -/
def optTruthy : Option String → Bool
  | none => false
  | some s => !(s == "")

/-- JavaScript `a || b` on optional strings (used for
`decoded.organization || req.headers[..]`). -/
def jsOrStr (a b : Option String) : Option String :=
  match a with
  | some s => if s == "" then b else some s
  | none => b

theorem listPfx_append (p r : List Char) : listPfx p (p ++ r) = true := by
  induction p with
  | nil => rfl
  | cons a as ih => simp [listPfx, ih]

/-! ## Authentication gateway (src/auth.ts) -/

/-- Decoded JWT payload as used by the OAuth middleware: the fields the code
reads (`organization`, `accessToken`, `sub`). -/
structure JwtPayload where
  organization : Option String
  accessToken : Option String
  sub : Option String

/-- The subset of `AuthConfig` the embedded functions read. -/
structure AuthConfig where
  patEnabled : Bool
  oauthEnabled : Bool
  jwtSecret : Option String
  azureClientId : Option String
  azureClientSecret : Option String

/-- Inbound HTTP request surface read by the middleware: the
`Authorization` and `x-ado-organization` headers, the `Upgrade` header and
the parsed JSON body. -/
structure HttpReq where
  authorization : Option String
  xAdoOrganization : Option String
  upgrade : Option String
  body : Option Json

/-- Environment for the effects of `auth.ts`: `jwt.verify` (returning the
decoded payload on success and `none` when verification throws) and the
remote `validatePAT` round trip (which the source wraps so that it returns a
boolean and never throws). -/
structure AuthEnv where
  verify : String → String → Option JwtPayload
  validatePAT : String → String → Bool

inductive AuthType where
  | pat : AuthType
  | oauth : AuthType

/-- The `req.auth` record installed on success (the caller identity). -/
structure CallerAuth where
  type : AuthType
  token : String
  organization : String
  userId : Option String
  claims : Option JwtPayload

/-- Outcome of a middleware run: `ok` means `next()` was called with
`req.auth` set to the given identity; `err` is a short-circuited
`res.status(s).json({error})`. -/
inductive AuthResult where
  | ok (a : CallerAuth) : AuthResult
  | err (status : Nat) (message : String) : AuthResult

/-- Embedding of `AuthService.authenticateWithPAT` (src/auth.ts lines 43-78). -/
def authenticateWithPAT (env : AuthEnv) (cfg : AuthConfig) (req : HttpReq) : AuthResult :=
  if !cfg.patEnabled then
    .err 501 ("PAT authentication is not enabled")
  else
    match req.authorization with
    | none => .err 401 ("Missing or invalid Authorization header. Expected: Bearer <PAT_TOKEN>")
    | some h =>
      if !strPfx ("Bearer ") h then
        .err 401 ("Missing or invalid Authorization header. Expected: Bearer <PAT_TOKEN>")
      else if !optTruthy req.xAdoOrganization then
        .err 400 ("Missing x-ado-organization header")
      else if env.validatePAT (strDropN 7 h) (req.xAdoOrganization.getD "") then
        .ok { type := .pat, token := strDropN 7 h,
              organization := req.xAdoOrganization.getD "",
              userId := none, claims := none }
      else
        .err 401 ("Invalid Personal Access Token")

/-- Embedding of `AuthService.authenticateWithOAuth` (src/auth.ts lines
81-118).  A missing/empty JWT secret throws inside the `try`, which the
`catch` turns into the 401 `Invalid or expired token` reply; a failed
`jwt.verify` does the same. -/
def authenticateWithOAuth (env : AuthEnv) (cfg : AuthConfig) (req : HttpReq) : AuthResult :=
  if !cfg.oauthEnabled then
    .err 501 ("OAuth authentication is not enabled")
  else
    match req.authorization with
    | none => .err 401 ("Missing or invalid Authorization header. Expected: Bearer <JWT_TOKEN>")
    | some h =>
      if !strPfx ("Bearer ") h then
        .err 401 ("Missing or invalid Authorization header. Expected: Bearer <JWT_TOKEN>")
      else
        match cfg.jwtSecret with
        | none => .err 401 ("Invalid or expired token")
        | some sec =>
          if sec == "" then .err 401 ("Invalid or expired token")
          else
            match env.verify (strDropN 7 h) sec with
            | none => .err 401 ("Invalid or expired token")
            | some decoded =>
              match jsOrStr decoded.organization req.xAdoOrganization with
              | none => .err 400 ("Organization not found in token or headers")
              | some org =>
                if org == "" then .err 400 ("Organization not found in token or headers")
                else
                  .ok { type := .oauth, token := decoded.accessToken.getD "",
                        organization := org, userId := decoded.sub,
                        claims := some decoded }

/-- The guarded `jwt.verify` probe at the top of the generic entry point:
`config.oauthEnabled && config.jwtSecret` (truthiness) and a verification
that does not throw. -/
def jwtVerifyOk (env : AuthEnv) (cfg : AuthConfig) (token : String) : Bool :=
  match cfg.jwtSecret with
  | none => false
  | some sec => cfg.oauthEnabled && !(sec == "") && (env.verify token sec).isSome

/-- Embedding of the generic `AuthService.authenticate` entry point
(src/auth.ts lines 121-154): header check, then JWT probe (success routes to
the OAuth middleware, any failure falls through), then PAT fallback. -/
def authenticate (env : AuthEnv) (cfg : AuthConfig) (req : HttpReq) : AuthResult :=
  match req.authorization with
  | none => .err 401 ("Missing or invalid Authorization header")
  | some h =>
    if !strPfx ("Bearer ") h then
      .err 401 ("Missing or invalid Authorization header")
    else
      if jwtVerifyOk env cfg (strDropN 7 h) then
        authenticateWithOAuth env cfg req
      else if cfg.patEnabled then
        authenticateWithPAT env cfg req
      else
        .err 401 ("No valid authentication method found")

/-! ## Helper lemmas about successful authentication -/

theorem optTruthy_getD {o : Option String} (h : optTruthy o = true) :
    o.getD "" ≠ "" := by
  cases o with
  | none => simp [optTruthy] at h
  | some s => simpa [optTruthy] using h

theorem authenticateWithPAT_ok {env : AuthEnv} {cfg : AuthConfig} {req : HttpReq}
    {a : CallerAuth} (h : authenticateWithPAT env cfg req = .ok a) :
    a.type = .pat ∧ a.organization ≠ "" ∧
      ∃ hd, req.authorization = some hd ∧ a.token = strDropN 7 hd := by
  unfold authenticateWithPAT at h
  split at h
  · simp at h
  · split at h
    · simp at h
    · rename_i s hs
      split at h
      · simp at h
      · split at h
        · simp at h
        · split at h
          · rename_i hpat hpfx horg hvalid
            cases h
            refine ⟨rfl, ?_, s, hs, rfl⟩
            exact optTruthy_getD (by simpa using horg)
          · simp at h

theorem authenticateWithOAuth_ok {env : AuthEnv} {cfg : AuthConfig} {req : HttpReq}
    {a : CallerAuth} (h : authenticateWithOAuth env cfg req = .ok a) :
    a.type = .oauth ∧ a.organization ≠ "" ∧
      ∃ p, a.claims = some p ∧ a.token = p.accessToken.getD "" := by
  unfold authenticateWithOAuth at h
  split at h
  · simp at h
  · split at h
    · simp at h
    · split at h
      · simp at h
      · split at h
        · simp at h
        · split at h
          · simp at h
          · split at h
            · simp at h
            · split at h
              · simp at h
              · split at h
                · simp at h
                · rename_i horg
                  cases h
                  simp only [beq_iff_eq] at horg
                  exact ⟨rfl, horg, _, rfl, rfl⟩

theorem authenticate_ok {env : AuthEnv} {cfg : AuthConfig} {req : HttpReq}
    {a : CallerAuth} (h : authenticate env cfg req = .ok a) :
    authenticateWithOAuth env cfg req = .ok a ∨
      authenticateWithPAT env cfg req = .ok a := by
  unfold authenticate at h
  split at h
  · simp at h
  · split at h
    · simp at h
    · split at h
      · exact Or.inl h
      · split at h
        · exact Or.inr h
        · simp at h

/-! ## Single-shot MCP endpoint (src/http-server.ts) -/

/-- Stands in for the version constant exported by `version.ts` (not part of
the provided sources); no claim depends on its value. -/
def packageVersion : String := "1.0.0"

/-- The `message.id` field as the delegation code reads it (`message.id`;
absent when the body is not an object or has no such key, in which case the
JavaScript `undefined` is dropped from the serialized reply). -/
def getId (m : Json) : Option Json := jgetField m ("id")

/-- The `message.method` field when it is a string. -/
def methodOf (m : Json) : Option String :=
  match jgetField m ("method") with
  | some (.str s) => some s
  | _ => none

/-- How `message.method` prints inside the timeout message template (an absent
method interpolates as the text `undefined`). -/
def methodDisplay (m : Json) : String := (methodOf m).getD ("undefined")

/-- The notification test used by `delegateToMcpServer`:
`message.method?.startsWith('notifications/')` (an absent method makes the
optional chain yield a falsy `undefined`). -/
def isNotifMethod (m : Json) : Bool :=
  strPfx ("notifications/") ((methodOf m).getD (""))

/-- Shape of the JSON-RPC error replies synthesized by the delegation code:
`\x7bjsonrpc, id?, error \x7bcode, message, data?\x7d\x7d`, with the `id` and
`data` keys dropped when the corresponding value is `undefined`. -/
def rpcErrorObj (id : Option Json) (code : Int) (msg : String) (data : Option Json) : Json :=
  Json.obj ([(("jsonrpc"), Json.str ("2.0"))] ++
    (match id with | some v => [(("id"), v)] | none => []) ++
    [(("error"), Json.obj
      ([(("code"), Json.num code), (("message"), Json.str msg)] ++
        (match data with | some d => [(("data"), d)] | none => [])))])

/-- The buffer-resolution cascade of `delegateToMcpServer` (src/http-server.ts
lines 351-379), as a function of the inbound message and the error/response
buffers captured by the synthetic transport; `none` is the literal `null`
no-response marker. -/
def resolveDelegation (m : Json) (errorData : List String) (responseData : List Json) :
    Option Json :=
  match errorData with
  | e :: _ =>
    some (rpcErrorObj (getId m) (-32603) ("Server transport error") (some (.str e)))
  | [] =>
    match responseData with
    | r :: _ => some r
    | [] =>
      if isNotifMethod m then none
      else
        some (rpcErrorObj (getId m) (-32603)
          ("Server timeout: no response for " ++ methodDisplay m) none)

/-- Environment abstracting what the freshly constructed MCP server instance
does during one delegation: whether `server.connect` throws, and the
transport-error and response buffers it has filled when the bounded wait
expires. -/
structure DelegationEnv where
  connectError : Json → Option String
  transportErrors : Json → List String
  responses : Json → List Json

/-- Embedding of `delegateToMcpServer` (src/http-server.ts lines 313-393):
the `catch` around `server.connect` resolves a `Failed to delegate` error;
otherwise the buffer cascade decides. -/
def delegateToMcpServer (denv : DelegationEnv) (m : Json) : Option Json :=
  match denv.connectError m with
  | some e =>
    some (rpcErrorObj (getId m) (-32603) ("Failed to delegate to server") (some (.str e)))
  | none => resolveDelegation m (denv.transportErrors m) (denv.responses m)

/-- JavaScript falsiness of a parsed JSON body (`!req.body`). -/
def jsFalsyJson : Json → Bool
  | .null => true
  | .bool b => !b
  | .num n => n == 0
  | .str s => s == ""
  | .arr _ => false
  | .obj _ => false

/-- Length of `Object.keys(req.body)` for the JSON values a parsed body can
take (objects and arrays enumerate their entries, strings their characters,
primitives nothing). -/
def jsKeysLength : Json → Nat
  | .obj fields => fields.length
  | .arr xs => xs.length
  | .str s => s.length
  | _ => 0

/-- The empty-body test of `handleMcpRequest`:
`!req.body || Object.keys(req.body).length === 0` (an absent body is falsy). -/
def bodyEmptyJs : Option Json → Bool
  | none => true
  | some m => jsFalsyJson m || jsKeysLength m == 0

/-- The fixed handshake capability reply sent for an empty body
(src/http-server.ts lines 248-264). -/
def initializeResult : Json :=
  Json.obj [(("jsonrpc"), Json.str ("2.0")), (("id"), Json.num 1),
    (("result"), Json.obj [
      (("protocolVersion"), Json.str ("2024-11-05")),
      (("capabilities"), Json.obj [
        (("tools"), Json.obj []),
        (("resources"), Json.obj []),
        (("prompts"), Json.obj [])]),
      (("serverInfo"), Json.obj [
        (("name"), Json.str ("Azure DevOps MCP Server")),
        (("version"), Json.str packageVersion)])])]

inductive HttpBody where
  | json (j : Json) : HttpBody
  | empty : HttpBody

structure HttpResponse where
  status : Nat
  body : HttpBody

/-- Outcome of the POST /mcp handler: either an upgrade onto the SSE stream
path or a plain HTTP response. -/
inductive McpPostResult where
  | sse : McpPostResult
  | http (r : HttpResponse) : McpPostResult

/-- The boundary translation of a delegation outcome (src/http-server.ts lines
274-281): a concrete message is sent as JSON with status 200, the `null`
no-response marker becomes `204 No Content` with an empty body. -/
def sendDelegationResult : Option Json → HttpResponse
  | some j => { status := 200, body := .json j }
  | none => { status := 204, body := .empty }

/-- Embedding of `handleMcpRequest` (src/http-server.ts lines 184-310) after
authentication: SSE upgrade check (`req.headers.upgrade === 'sse'` for POST),
empty-body handshake short-circuit, then delegation of the parsed message. -/
def handleMcpRequest (denv : DelegationEnv) (req : HttpReq) : McpPostResult :=
  if req.upgrade == some ("sse") then .sse
  else
    match req.body with
    | none => .http { status := 200, body := .json initializeResult }
    | some m =>
      if jsFalsyJson m || jsKeysLength m == 0 then
        .http { status := 200, body := .json initializeResult }
      else
        .http (sendDelegationResult (delegateToMcpServer denv m))

/-- Result of the full POST /mcp pipeline
(`app.post('/mcp', authenticate, handleMcpRequest)`): the outward response
plus a flag recording whether the protocol handler past the gateway ran. -/
structure McpPostOutcome where
  result : McpPostResult
  protocolReached : Bool

/-- The POST /mcp route composition (src/http-server.ts line 115): the
authentication middleware short-circuits with its error reply, and only on
success does the protocol handler run. -/
def mcpPost (env : AuthEnv) (cfg : AuthConfig) (denv : DelegationEnv) (req : HttpReq) :
    McpPostOutcome :=
  match authenticate env cfg req with
  | .err s m =>
    { result := .http { status := s, body := .json (Json.obj [(("error"), Json.str m)]) },
      protocolReached := false }
  | .ok _ => { result := handleMcpRequest denv req, protocolReached := true }

/-! ## Claim C1 -/

/-- The token projection of a middleware outcome (`some` exactly on success). -/
def tokenOfResult : AuthResult → Option String
  | .ok a => some a.token
  | .err _ _ => none

/-- Concrete environment for the C1 counterexample: `jwt.verify` succeeds and
returns a payload carrying an organization claim but no `accessToken` claim. -/
def c1ceEnv : AuthEnv :=
  { verify := fun _ _ => some { organization := some ("acme"), accessToken := none, sub := none },
    validatePAT := fun _ _ => false }

def c1ceCfg : AuthConfig :=
  { patEnabled := true, oauthEnabled := true, jwtSecret := some ("secret"),
    azureClientId := none, azureClientSecret := none }

def c1ceReq : HttpReq :=
  { authorization := some ("Bearer tok"), xAdoOrganization := none,
    upgrade := none, body := none }

/-- C1, counterexample: under the federated scheme a successfully verified
token whose payload lacks the `accessToken` claim authenticates with an
EMPTY `token` field (`decoded.accessToken || ''` in src/auth.ts line 107), so
the claimed non-empty-token invariant fails. -/
theorem c1_counterexample : tokenOfResult (authenticate c1ceEnv c1ceCfg c1ceReq) = some ("") := by
  rfl

/-- C1 (amended): every successfully authenticated request has a non-empty
`organization`; under the credential-token scheme the `token` is the
presented bearer credential verbatim (hence non-empty whenever the credential
is), while under the federated scheme the `token` is the embedded
`accessToken` claim and may be empty when that claim is absent or empty. -/
theorem c1_amended (env : AuthEnv) (cfg : AuthConfig) (req : HttpReq) (a : CallerAuth)
    (h : authenticate env cfg req = .ok a) :
    a.organization ≠ "" ∧
      (a.type = .pat → ∃ hd, req.authorization = some hd ∧ a.token = strDropN 7 hd) ∧
      (a.type = .oauth → ∃ p, a.claims = some p ∧ a.token = p.accessToken.getD "") := by
  rcases authenticate_ok h with ho | hp
  · obtain ⟨ht, horg, p, hc, htk⟩ := authenticateWithOAuth_ok ho
    refine ⟨horg, fun hpt => ?_, fun _ => ⟨p, hc, htk⟩⟩
    rw [ht] at hpt
    exact absurd hpt (by simp)
  · obtain ⟨ht, horg, hd, hh, htk⟩ := authenticateWithPAT_ok hp
    refine ⟨horg, fun _ => ⟨hd, hh, htk⟩, fun hot => ?_⟩
    rw [ht] at hot
    exact absurd hot (by simp)

def envPatOnly : AuthEnv :=
  { verify := fun _ _ => none, validatePAT := fun _ _ => true }

def cfgPatOnly : AuthConfig :=
  { patEnabled := true, oauthEnabled := false, jwtSecret := none,
    azureClientId := none, azureClientSecret := none }

def reqPatOk : HttpReq :=
  { authorization := some ("Bearer abc"), xAdoOrganization := some ("contoso"),
    upgrade := none, body := none }

def c1wAuth : CallerAuth :=
  { type := .pat, token := "abc", organization := "contoso", userId := none, claims := none }

/-- Witness for C1 (amended) at a concrete PAT authentication. -/
theorem c1_witness :
    c1wAuth.organization ≠ "" ∧
      (c1wAuth.type = .pat → ∃ hd, reqPatOk.authorization = some hd ∧ c1wAuth.token = strDropN 7 hd) ∧
      (c1wAuth.type = .oauth → ∃ p, c1wAuth.claims = some p ∧ c1wAuth.token = p.accessToken.getD "") :=
  c1_amended envPatOnly cfgPatOnly reqPatOk c1wAuth (by rfl)

/-! ## Claim C2 -/

/-- C2: a request to the protocol endpoint whose Authorization header is
absent or does not start with the `Bearer ` scheme is rejected with the 401
authentication failure, and the protocol handler past the gateway never runs
(the outcome is the same for every delegation environment). -/
theorem c2_auth_precedes_protocol (env : AuthEnv) (cfg : AuthConfig) (denv : DelegationEnv)
    (req : HttpReq)
    (h : req.authorization = none ∨
      ∃ hd, req.authorization = some hd ∧ strPfx ("Bearer ") hd = false) :
    mcpPost env cfg denv req =
      { result := .http ⟨401,
          .json (Json.obj [(("error"),
            Json.str ("Missing or invalid Authorization header"))])⟩,
        protocolReached := false } := by
  unfold mcpPost authenticate
  rcases h with h | ⟨hd, hh, hp⟩
  · rw [h]
  · rw [hh]
    simp [hp]

def reqNoAuth : HttpReq :=
  { authorization := none, xAdoOrganization := none, upgrade := none, body := none }

def emptyDenv : DelegationEnv :=
  { connectError := fun _ => none, transportErrors := fun _ => [],
    responses := fun _ => [] }

/-- Witness for C2 at a concrete header-less request. -/
theorem c2_witness :
    mcpPost envPatOnly cfgPatOnly emptyDenv reqNoAuth =
      { result := .http ⟨401,
          .json (Json.obj [(("error"),
            Json.str ("Missing or invalid Authorization header"))])⟩,
        protocolReached := false } :=
  c2_auth_precedes_protocol envPatOnly cfgPatOnly emptyDenv reqNoAuth (Or.inl rfl)

/-! ## Claim C5 -/

/-- C5: with both schemes operational, the generic entry point attempts local
JWT verification first; success routes the request to the OAuth middleware,
and any verification failure (wrong secret included) falls through to the PAT
middleware instead of rejecting outright. -/
theorem c5_scheme_cascade (env : AuthEnv) (cfg : AuthConfig) (req : HttpReq) (hd sec : String)
    (hauth : req.authorization = some hd) (hpfx : strPfx ("Bearer ") hd = true)
    (hoauth : cfg.oauthEnabled = true) (hsec : cfg.jwtSecret = some sec) (hne : sec ≠ "")
    (hpat : cfg.patEnabled = true) :
    ((env.verify (strDropN 7 hd) sec).isSome = true →
        authenticate env cfg req = authenticateWithOAuth env cfg req) ∧
      (env.verify (strDropN 7 hd) sec = none →
        authenticate env cfg req = authenticateWithPAT env cfg req) := by
  constructor
  · intro hv
    unfold authenticate
    rw [hauth]
    simp [hpfx, jwtVerifyOk, hsec, hoauth, hne, hv]
  · intro hv
    unfold authenticate
    rw [hauth]
    simp [hpfx, jwtVerifyOk, hsec, hoauth, hne, hv, hpat]

def cfgBothSchemes : AuthConfig :=
  { patEnabled := true, oauthEnabled := true, jwtSecret := some ("secret"),
    azureClientId := none, azureClientSecret := none }

/-- Witness for C5 at a concrete always-failing verifier: the entry point
equals the PAT middleware run. -/
theorem c5_witness :
    authenticate envPatOnly cfgBothSchemes reqPatOk = authenticateWithPAT envPatOnly cfgBothSchemes reqPatOk :=
  (c5_scheme_cascade envPatOnly cfgBothSchemes reqPatOk ("Bearer abc") ("secret") rfl (by decide)
    rfl rfl (by decide) rfl).2 rfl

/-! ## Claim C6 -/

/-- C6: under the credential-token scheme, a request presenting a bearer
credential but no `x-ado-organization` header fails with the 400
missing-organization reply, and this does not depend on the remote-validation
environment (no remote call can influence the outcome). -/
theorem c6_missing_org_fails_fast (cfg : AuthConfig) (req : HttpReq) (hd : String)
    (hpat : cfg.patEnabled = true) (hauth : req.authorization = some hd)
    (hpfx : strPfx ("Bearer ") hd = true) (horg : req.xAdoOrganization = none) :
    ∀ env : AuthEnv,
      authenticateWithPAT env cfg req = .err 400 ("Missing x-ado-organization header") := by
  intro env
  unfold authenticateWithPAT
  rw [hauth]
  simp [hpat, hpfx, horg, optTruthy]

def reqNoOrgHeader : HttpReq :=
  { authorization := some ("Bearer abc"), xAdoOrganization := none,
    upgrade := none, body := none }

/-- Witness for C6 at a concrete request, instantiating the environment with
an always-accepting remote validator (which still cannot flip the outcome). -/
theorem c6_witness :
    authenticateWithPAT envPatOnly cfgPatOnly reqNoOrgHeader = .err 400 ("Missing x-ado-organization header") :=
  c6_missing_org_fails_fast cfgPatOnly reqNoOrgHeader ("Bearer abc") rfl rfl (by decide) rfl envPatOnly

/-! ## Stream transport (src/http-transport.ts, part_002) -/

/-- Observable state of one `HttpTransport` instance: the `_closed` flag, the
sequence of messages framed and written to the underlying response (each write
is the `data:`-framed serialization of one message; we record the message),
how many times `response.end()` ran, and how many times the `onclose`
notification to the owning session fired. -/
structure TransportState where
  closedFlag : Bool
  written : List Json
  ended : Nat
  oncloseSignals : Nat

/-- A freshly constructed transport (`_closed = false`, nothing written). -/
def initialTransport : TransportState :=
  { closedFlag := false, written := [], ended := 0, oncloseSignals := 0 }

/-- Embedding of `HttpTransport.close` (part_002 lines 238-252): early return
when already closed, otherwise set the flag, end the response (errors
ignored) and fire `onclose`. -/
def transportClose (s : TransportState) : TransportState :=
  if s.closedFlag then s
  else { closedFlag := true, written := s.written,
         ended := s.ended + 1, oncloseSignals := s.oncloseSignals + 1 }

/-- Embedding of `HttpTransport.send` (part_002 lines 224-236): throws
`Transport is closed` when the flag is set, otherwise writes one framed
message to the response. -/
def transportSend (s : TransportState) (m : Json) : Except String Unit × TransportState :=
  if s.closedFlag then (.error ("Transport is closed"), s)
  else (.ok (), { s with written := s.written ++ [m] })

/-! ## Claim C9 -/

/-- C9: closing the stream transport is idempotent, and starting from a fresh
transport any positive number of close calls ends the response exactly once
and fires the owning session's close notification exactly once. -/
theorem c9_close_idempotent (s : TransportState) (n : Nat) (h : 1 ≤ n) :
    transportClose (transportClose s) = transportClose s ∧
      (transportClose^[n]) initialTransport =
        { closedFlag := true, written := [], ended := 1, oncloseSignals := 1 } := by
  constructor
  · by_cases hc : s.closedFlag
    · simp [transportClose, hc]
    · simp [transportClose, hc]
  · induction n with
    | zero => exact absurd h (by omega)
    | succ k ih =>
      rcases Nat.eq_zero_or_pos k with hk | hk
      · subst hk; rfl
      · rw [Function.iterate_succ_apply', ih hk]
        rfl

/-- Witness for C9: two consecutive closes of a fresh transport. -/
theorem c9_witness :
    transportClose (transportClose initialTransport) = transportClose initialTransport ∧
      (transportClose^[2]) initialTransport =
        { closedFlag := true, written := [], ended := 1, oncloseSignals := 1 } :=
  c9_close_idempotent initialTransport 2 (by decide)

/-! ## Claim C10 -/

/-- C10: after the transport has been closed, every `send` fails with the
`Transport is closed` error and leaves the transport state (in particular the
written output) unchanged, for every message. -/
theorem c10_send_after_close (s : TransportState) (m : Json) :
    transportSend (transportClose s) m = (.error ("Transport is closed"), transportClose s) := by
  by_cases hc : s.closedFlag
  · simp [transportClose, transportSend, hc]
  · simp [transportClose, transportSend, hc]

/-! ## Claim C3 -/

/-- The resolution policy exactly as the claim states it, for comparison with
the code-derived `resolveDelegation`: identical cascade, but clause (c) is
keyed on the inbound message being a Notification in the data-model sense,
i.e. carrying no `id`. -/
def resolveDelegationClaimed (m : Json) (errorData : List String)
    (responseData : List Json) : Option Json :=
  match errorData with
  | e :: _ =>
    some (rpcErrorObj (getId m) (-32603) ("Server transport error") (some (.str e)))
  | [] =>
    match responseData with
    | r :: _ => some r
    | [] =>
      if (getId m).isNone then none
      else
        some (rpcErrorObj (getId m) (-32603)
          ("Server timeout: no response for " ++ methodDisplay m) none)

def c3ceMsg : Json :=
  Json.obj [(("id"), Json.num 7), (("method"), Json.str ("notifications/initialized"))]

/-- C3, counterexample: the code keys clause (c) on the method-name prefix
`notifications/` (src/http-server.ts line 365), not on the message being a
Notification (id-less).  For a message carrying id 7 together with a
notifications-slash-prefixed method, with empty buffers, the code resolves the
no-response marker whereas the claimed policy demands a timeout error
carrying id 7. -/
theorem c3_counterexample :
    resolveDelegation c3ceMsg [] [] = none ∧
      resolveDelegationClaimed c3ceMsg [] [] =
        some (rpcErrorObj (some (Json.num 7)) (-32603)
          ("Server timeout: no response for notifications/initialized") none) := by
  constructor
  · rfl
  · rfl

/-- C3 (amended): the resolved outcome of one delegation whose server
connection succeeded follows the priority order: first-recorded transport
error wrapped in a protocol error response; else the first buffered message
verbatim; else the no-response marker when the inbound message's method
starts with `notifications/`; else a timeout error carrying the original
message's `id` field verbatim. -/
theorem c3_amended (denv : DelegationEnv) (m : Json)
    (hc : denv.connectError m = none) :
    (∀ e tl, denv.transportErrors m = e :: tl →
        delegateToMcpServer denv m =
          some (rpcErrorObj (getId m) (-32603) ("Server transport error") (some (.str e)))) ∧
      (∀ r tl, denv.transportErrors m = [] → denv.responses m = r :: tl →
        delegateToMcpServer denv m = some r) ∧
      (denv.transportErrors m = [] → denv.responses m = [] → isNotifMethod m = true →
        delegateToMcpServer denv m = none) ∧
      (denv.transportErrors m = [] → denv.responses m = [] → isNotifMethod m = false →
        delegateToMcpServer denv m =
          some (rpcErrorObj (getId m) (-32603)
            ("Server timeout: no response for " ++ methodDisplay m) none)) := by
  refine ⟨?_, ?_, ?_, ?_⟩
  · intro e tl he
    unfold delegateToMcpServer
    rw [hc]
    unfold resolveDelegation
    rw [he]
  · intro r tl he hr
    unfold delegateToMcpServer
    rw [hc]
    unfold resolveDelegation
    rw [he, hr]
  · intro he hr hn
    unfold delegateToMcpServer
    rw [hc]
    unfold resolveDelegation
    rw [he, hr]
    simp [hn]
  · intro he hr hn
    unfold delegateToMcpServer
    rw [hc]
    unfold resolveDelegation
    rw [he, hr]
    simp [hn]

def c3wMsg : Json := Json.obj [(("method"), Json.str ("notifications/initialized"))]

/-- Witness for C3 (amended), clause (c), at a concrete id-less notification
with empty buffers. -/
theorem c3_witness : delegateToMcpServer emptyDenv c3wMsg = none :=
  (c3_amended emptyDenv c3wMsg rfl).2.2.1 rfl rfl (by rfl)

/-! ## Claim C4 -/

def c4ceMsg : Json := Json.obj [(("method"), Json.str ("ping"))]

/-- C4, counterexample: an inbound message carrying no `id` (a Notification
per the data model) whose method does not start with `notifications/`
resolves, with empty buffers, to a synthesized timeout error — an HTTP 200
JSON reply at the boundary — not to the no-response marker / 204. -/
theorem c4_counterexample :
    resolveDelegation c4ceMsg [] [] =
        some (rpcErrorObj none (-32603) ("Server timeout: no response for ping") none) ∧
      (sendDelegationResult (resolveDelegation c4ceMsg [] [])).status = 200 := by
  constructor
  · rfl
  · rfl

/-- C4 (amended): for a single-shot input carrying no `id` whose method
starts with `notifications/`, when the server emits nothing and no transport
error occurs, the adapter resolves the explicit no-response marker and the
HTTP boundary translates that marker into a 204 response with an empty
body. -/
theorem c4_amended (denv : DelegationEnv) (req : HttpReq) (m : Json)
    (hup : (req.upgrade == some ("sse")) = false)
    (hb : req.body = some m)
    (hne : (jsFalsyJson m || jsKeysLength m == 0) = false)
    (hid : getId m = none) (hpre : isNotifMethod m = true)
    (hce : denv.connectError m = none)
    (herr : denv.transportErrors m = [])
    (hresp : denv.responses m = []) :
    delegateToMcpServer denv m = none ∧
      handleMcpRequest denv req = .http ⟨204, .empty⟩ := by
  have hdel : delegateToMcpServer denv m = none := by
    unfold delegateToMcpServer
    rw [hce]
    unfold resolveDelegation
    rw [herr, hresp]
    simp [hpre]
  refine ⟨hdel, ?_⟩
  unfold handleMcpRequest
  rw [hup, hb]
  simp [hne, hdel, sendDelegationResult]

def c4wMsg : Json := Json.obj [(("method"), Json.str ("notifications/initialized"))]

def c4wReq : HttpReq :=
  { authorization := some ("Bearer abc"), xAdoOrganization := some ("contoso"),
    upgrade := none, body := some c4wMsg }

/-- Witness for C4 (amended) at a concrete id-less `notifications/initialized`
input. -/
theorem c4_witness :
    delegateToMcpServer emptyDenv c4wMsg = none ∧
      handleMcpRequest emptyDenv c4wReq = .http ⟨204, .empty⟩ :=
  c4_amended emptyDenv c4wReq c4wMsg rfl rfl rfl rfl rfl rfl rfl rfl

/-! ## Claim C8 -/

/-- C8: a POST to the single-shot endpoint that is not upgraded to the stream
path and carries an empty or absent JSON body is answered with the fixed
handshake capability declaration and HTTP 200, for every delegation
environment (the delegation algorithm cannot influence the outcome). -/
theorem c8_empty_body_handshake (denv : DelegationEnv) (req : HttpReq)
    (hup : (req.upgrade == some ("sse")) = false)
    (hb : bodyEmptyJs req.body = true) :
    handleMcpRequest denv req = .http ⟨200, .json initializeResult⟩ := by
  unfold handleMcpRequest
  rw [hup]
  cases hbody : req.body with
  | none => rfl
  | some m =>
    rw [hbody] at hb
    simp only [bodyEmptyJs] at hb
    simp [hb]

/-- Witness for C8 at a concrete body-less request. -/
theorem c8_witness : handleMcpRequest emptyDenv reqNoAuth = .http ⟨200, .json initializeResult⟩ :=
  c8_empty_body_handshake emptyDenv reqNoAuth rfl rfl

/-! ## JSON string serialization (for the OAuth state payload)

The OAuth initiation embeds `JSON.stringify(\x7borganization\x7d)` in the
authorization URL and the callback recovers it with `JSON.parse`.  The string
escaping below follows the JSON serializer of the runtime: `"` and backslash
escaped, the five control characters with shorthand escapes, remaining
control characters as `\u00XX`; the unescaper additionally accepts the
escaped solidus that `JSON.parse` allows. -/

def dq : Char := '"'

def bsl : Char := '\\'

def soli : Char := '/'

def bsChar : Char := '\x08'

def tabChar : Char := '\t'

def nlChar : Char := '\n'

def ffChar : Char := '\x0c'

def crChar : Char := '\r'

def rbrace : Char := '\x7d'

def hexDig (n : Nat) : Char :=
  if n < 10 then Char.ofNat (48 + n) else Char.ofNat (87 + n)

def hexVal (c : Char) : Option Nat :=
  if 48 ≤ c.toNat ∧ c.toNat ≤ 57 then some (c.toNat - 48)
  else if 97 ≤ c.toNat ∧ c.toNat ≤ 102 then some (c.toNat - 87)
  else if 65 ≤ c.toNat ∧ c.toNat ≤ 70 then some (c.toNat - 55)
  else none

/-- JSON escape of one character. -/
def escChar (c : Char) : List Char :=
  if c = dq then [bsl, dq]
  else if c = bsl then [bsl, bsl]
  else if c = bsChar then [bsl, 'b']
  else if c = tabChar then [bsl, 't']
  else if c = nlChar then [bsl, 'n']
  else if c = ffChar then [bsl, 'f']
  else if c = crChar then [bsl, 'r']
  else if c.toNat < 32 then [bsl, 'u', '0', '0', hexDig (c.toNat / 16), hexDig (c.toNat % 16)]
  else [c]

/-- JSON escape of a character sequence. -/
def jsonEscape : List Char → List Char
  | [] => []
  | c :: cs => escChar c ++ jsonEscape cs

def consFst (c : Char) (o : Option (List Char × List Char)) : Option (List Char × List Char) :=
  o.map (fun p => (c :: p.1, p.2))

/-- Consume the body of a JSON string literal (after the opening quote) up to
its closing quote, resolving escapes; returns the decoded content and the
remaining input. -/
def unescStr : List Char → Option (List Char × List Char)
  | [] => none
  | c :: rest =>
    if c = dq then some ([], rest)
    else if c = bsl then
      match rest with
      | [] => none
      | e :: rest2 =>
        if e = dq then consFst dq (unescStr rest2)
        else if e = bsl then consFst bsl (unescStr rest2)
        else if e = soli then consFst soli (unescStr rest2)
        else if e = 'b' then consFst bsChar (unescStr rest2)
        else if e = 't' then consFst tabChar (unescStr rest2)
        else if e = 'n' then consFst nlChar (unescStr rest2)
        else if e = 'f' then consFst ffChar (unescStr rest2)
        else if e = 'r' then consFst crChar (unescStr rest2)
        else if e = 'u' then
          match rest2 with
          | h1 :: h2 :: h3 :: h4 :: rest3 =>
            match hexVal h1, hexVal h2, hexVal h3, hexVal h4 with
            | some a, some b, some c2, some d =>
              consFst (Char.ofNat (((a * 16 + b) * 16 + c2) * 16 + d)) (unescStr rest3)
            | _, _, _, _ => none
          | _ => none
        else none
    else consFst c (unescStr rest)

theorem hexVal_hexDig : ∀ a, a < 16 → hexVal (hexDig a) = some a := by decide

theorem unescStr_dq (rest : List Char) : unescStr (dq :: rest) = some ([], rest) := by
  rw [unescStr.eq_def]
  dsimp only
  rw [if_pos rfl]

theorem unescStr_other (c : Char) (rest : List Char) (hd : ¬ c = dq) (hb : ¬ c = bsl) :
    unescStr (c :: rest) = consFst c (unescStr rest) := by
  rw [unescStr.eq_def]
  dsimp only
  rw [if_neg hd, if_neg hb]

theorem unescStr_esc_dq (rest : List Char) :
    unescStr (bsl :: dq :: rest) = consFst dq (unescStr rest) := by
  rw [unescStr.eq_def]
  dsimp only
  rw [if_neg (by decide), if_pos rfl]
  try dsimp only
  rw [if_pos rfl]

theorem unescStr_esc_bsl (rest : List Char) :
    unescStr (bsl :: bsl :: rest) = consFst bsl (unescStr rest) := by
  rw [unescStr.eq_def]
  dsimp only
  rw [if_neg (by decide), if_pos rfl]
  try dsimp only
  rw [if_neg (by decide), if_pos rfl]

theorem unescStr_esc_b (rest : List Char) :
    unescStr (bsl :: 'b' :: rest) = consFst bsChar (unescStr rest) := by
  rw [unescStr.eq_def]
  dsimp only
  rw [if_neg (by decide), if_pos rfl]
  try dsimp only
  rw [if_neg (by decide), if_neg (by decide), if_neg (by decide), if_pos rfl]

theorem unescStr_esc_t (rest : List Char) :
    unescStr (bsl :: 't' :: rest) = consFst tabChar (unescStr rest) := by
  rw [unescStr.eq_def]
  dsimp only
  rw [if_neg (by decide), if_pos rfl]
  try dsimp only
  rw [if_neg (by decide), if_neg (by decide), if_neg (by decide), if_neg (by decide),
    if_pos rfl]

theorem unescStr_esc_n (rest : List Char) :
    unescStr (bsl :: 'n' :: rest) = consFst nlChar (unescStr rest) := by
  rw [unescStr.eq_def]
  dsimp only
  rw [if_neg (by decide), if_pos rfl]
  try dsimp only
  rw [if_neg (by decide), if_neg (by decide), if_neg (by decide), if_neg (by decide),
    if_neg (by decide), if_pos rfl]

theorem unescStr_esc_f (rest : List Char) :
    unescStr (bsl :: 'f' :: rest) = consFst ffChar (unescStr rest) := by
  rw [unescStr.eq_def]
  dsimp only
  rw [if_neg (by decide), if_pos rfl]
  try dsimp only
  rw [if_neg (by decide), if_neg (by decide), if_neg (by decide), if_neg (by decide),
    if_neg (by decide), if_neg (by decide), if_pos rfl]

theorem unescStr_esc_r (rest : List Char) :
    unescStr (bsl :: 'r' :: rest) = consFst crChar (unescStr rest) := by
  rw [unescStr.eq_def]
  dsimp only
  rw [if_neg (by decide), if_pos rfl]
  try dsimp only
  rw [if_neg (by decide), if_neg (by decide), if_neg (by decide), if_neg (by decide),
    if_neg (by decide), if_neg (by decide), if_neg (by decide), if_pos rfl]

theorem unescStr_esc_u (h1 h2 h3 h4 : Char) (a b c2 d : Nat) (rest : List Char)
    (v1 : hexVal h1 = some a) (v2 : hexVal h2 = some b)
    (v3 : hexVal h3 = some c2) (v4 : hexVal h4 = some d) :
    unescStr (bsl :: 'u' :: h1 :: h2 :: h3 :: h4 :: rest) =
      consFst (Char.ofNat (((a * 16 + b) * 16 + c2) * 16 + d)) (unescStr rest) := by
  rw [unescStr.eq_def]
  dsimp only
  rw [if_neg (by decide), if_pos rfl]
  try dsimp only
  rw [if_neg (by decide), if_neg (by decide), if_neg (by decide), if_neg (by decide),
    if_neg (by decide), if_neg (by decide), if_neg (by decide), if_neg (by decide),
    if_pos rfl]
  try dsimp only
  rw [v1, v2, v3, v4]

/-- The unescaper inverts the escape of one character. -/
theorem unescStr_escChar (c : Char) (rest : List Char) :
    unescStr (escChar c ++ rest) = consFst c (unescStr rest) := by
  by_cases h1 : c = dq
  · subst h1
    rw [show escChar dq = [bsl, dq] from rfl]
    exact unescStr_esc_dq rest
  by_cases h2 : c = bsl
  · subst h2
    rw [show escChar bsl = [bsl, bsl] from rfl]
    exact unescStr_esc_bsl rest
  by_cases h3 : c = bsChar
  · subst h3
    rw [show escChar bsChar = [bsl, 'b'] from rfl]
    exact unescStr_esc_b rest
  by_cases h4 : c = tabChar
  · subst h4
    rw [show escChar tabChar = [bsl, 't'] from rfl]
    exact unescStr_esc_t rest
  by_cases h5 : c = nlChar
  · subst h5
    rw [show escChar nlChar = [bsl, 'n'] from rfl]
    exact unescStr_esc_n rest
  by_cases h6 : c = ffChar
  · subst h6
    rw [show escChar ffChar = [bsl, 'f'] from rfl]
    exact unescStr_esc_f rest
  by_cases h7 : c = crChar
  · subst h7
    rw [show escChar crChar = [bsl, 'r'] from rfl]
    exact unescStr_esc_r rest
  by_cases h8 : c.toNat < 32
  · have hesc : escChar c =
        [bsl, 'u', '0', '0', hexDig (c.toNat / 16), hexDig (c.toNat % 16)] := by
      unfold escChar
      rw [if_neg h1, if_neg h2, if_neg h3, if_neg h4, if_neg h5, if_neg h6, if_neg h7,
        if_pos h8]
    rw [hesc]
    rw [show ([bsl, 'u', '0', '0', hexDig (c.toNat / 16), hexDig (c.toNat % 16)] ++ rest)
        = bsl :: 'u' :: '0' :: '0' :: hexDig (c.toNat / 16) :: hexDig (c.toNat % 16) :: rest
      from rfl]
    rw [unescStr_esc_u '0' '0' (hexDig (c.toNat / 16)) (hexDig (c.toNat % 16))
      0 0 (c.toNat / 16) (c.toNat % 16) rest (by decide) (by decide)
      (hexVal_hexDig _ (by omega)) (hexVal_hexDig _ (by omega))]
    have harith : ((0 * 16 + 0) * 16 + c.toNat / 16) * 16 + c.toNat % 16 = c.toNat := by
      omega
    rw [harith, Char.ofNat_toNat]
  · have hesc : escChar c = [c] := by
      unfold escChar
      rw [if_neg h1, if_neg h2, if_neg h3, if_neg h4, if_neg h5, if_neg h6, if_neg h7,
        if_neg h8]
    rw [hesc]
    exact unescStr_other c rest h1 h2

/-- The unescaper inverts the escape of a whole string body up to the closing
quote. -/
theorem unescStr_jsonEscape (cs rest : List Char) :
    unescStr (jsonEscape cs ++ (dq :: rest)) = some (cs, rest) := by
  induction cs with
  | nil =>
    rw [jsonEscape, List.nil_append]
    exact unescStr_dq rest
  | cons c cs ih =>
    rw [jsonEscape, List.append_assoc, unescStr_escChar, ih]
    rfl

/-! ## OAuth flow (src/auth.ts lines 157-234) -/

/-- The characters of the literal prefix of the serialized state object,
`JSON.stringify(\x7borganization: org\x7d)` up to the opening quote of the
value. -/
def stateJsonOpen : List Char := String.toList ("\x7b\"organization\":\"")

/-- The serialized state payload `JSON.stringify(\x7borganization\x7d)`
embedded into the authorization URL (src/auth.ts line 183). -/
def stateJson (org : String) : String :=
  String.mk (stateJsonOpen ++ (jsonEscape org.data ++ (dq :: [rbrace])))

/-- The organization extraction the callback performs on the state value:
`JSON.parse(state).organization`, modelled for the fragment of JSON produced
by the initiation step (`none` models a `JSON.parse` throw, `some o` a parsed
object with organization field `o`). -/
def parseStateOrganization (s : String) : Option (Option String) :=
  if listPfx stateJsonOpen s.data then
    match unescStr (s.data.drop stateJsonOpen.length) with
    | some (content, rest) =>
      if rest = [rbrace] then some (some (String.mk content)) else none
    | none => none
  else none

/-- Parsing the state payload recovers the organization exactly, for every
organization string. -/
theorem parseState_stateJson (org : String) :
    parseStateOrganization (stateJson org) = some (some org) := by
  obtain ⟨d⟩ := org
  unfold parseStateOrganization stateJson
  rw [show (String.mk (stateJsonOpen ++
      (jsonEscape (String.data (String.mk d)) ++ (dq :: [rbrace])))).data
      = stateJsonOpen ++ (jsonEscape d ++ (dq :: [rbrace])) from rfl]
  rw [if_pos (listPfx_append _ _)]
  rw [List.drop_left]
  rw [unescStr_jsonEscape]
  dsimp only
  rw [if_pos rfl]

/-- The token-endpoint reply shape (`AzureTokenResponse` in src/auth.ts). -/
structure AzureTokenResponse where
  access_token : String
  token_type : String
  expires_in : Nat
  scope : String

/-- The claim set signed into the session token by the callback
(src/auth.ts lines 217-223). -/
structure SessionClaims where
  sub : String
  accessToken : String
  organization : Option String
  iat : Nat
  exp : Nat

/-- Environment for the OAuth flow effects: the authorization-code exchange
against the out-of-band token endpoint (arguments: code, redirect URI, client
id, client secret; `none` models any non-success outcome which the source
turns into a thrown error), `jwt.sign`, and the current time in
milliseconds. -/
structure OAuthEnv where
  exchangeCodeForToken : String → String → String → String → Option AzureTokenResponse
  sign : SessionClaims → String → String
  nowMs : Nat

/-- Abstract model of the URI-component codec the URL embedding runs through
(`encodeURIComponent` on the way out, the HTTP framework's query decoding on
the way back); the round-trip law is assumed where needed. -/
structure UriCodec where
  encode : String → String
  decode : String → String

/-- The query parameters `initiateOAuthFlow` reads. -/
structure OAuthQuery where
  organization : Option String
  redirect_uri : Option String

/-- The fixed scope list (src/auth.ts lines 169-176), space-joined. -/
def oauthScopes : String :=
  "https://app.vssps.visualstudio.com/user_profile https://dev.azure.com/user_profile vso.work_write vso.code_write vso.build_execute vso.release_execute"

/-- The default callback URI derived from the request
(src/auth.ts lines 163 and 195). -/
def defaultCallbackUri (protocol host : String) : String :=
  protocol ++ "://" ++ host ++ "/auth/callback"

/-- The redirect URI used by initiation: the supplied query value when truthy,
else the default callback. -/
def redirectUriOf (q : OAuthQuery) (protocol host : String) : String :=
  match q.redirect_uri with
  | some r => if r == "" then defaultCallbackUri protocol host else r
  | none => defaultCallbackUri protocol host

/-- The authorization URL up to (and excluding) the state parameter
(src/auth.ts lines 178-182). -/
def authUrlStem (u : UriCodec) (cfg : AuthConfig) (q : OAuthQuery)
    (protocol host : String) : String :=
  "https://app.vssps.visualstudio.com/oauth2/authorize" ++
    "?client_id=" ++ cfg.azureClientId.getD "" ++
    "&response_type=code" ++
    "&redirect_uri=" ++ u.encode (redirectUriOf q protocol host) ++
    "&scope=" ++ u.encode oauthScopes

/-- Embedding of `AuthService.initiateOAuthFlow` (src/auth.ts lines 157-186):
configuration check, required organization, then the composed authorization
URL ending in the encoded state payload. -/
def initiateOAuthFlow (u : UriCodec) (cfg : AuthConfig) (q : OAuthQuery)
    (protocol host : String) : Except (Nat × String) String :=
  if !cfg.oauthEnabled || !optTruthy cfg.azureClientId then
    .error (501, "OAuth is not configured")
  else
    match q.organization with
    | none => .error (400, "organization parameter is required")
    | some org =>
      if org == "" then .error (400, "organization parameter is required")
      else
        .ok (authUrlStem u cfg q protocol host ++ ("&state=" ++ u.encode (stateJson org)))

/-- The JSON body of a successful callback reply. -/
structure CallbackResponse where
  token : String
  expires_in : Nat
  organization : Option String

def dotChar : Char := '.'

/-- JavaScript `s.split('.')[0]`: the characters before the first dot. -/
def firstDotSegment (s : String) : String :=
  String.mk (s.data.takeWhile (fun c => !(c = dotChar)))

/-- Embedding of `AuthService.handleOAuthCallback` (src/auth.ts lines
189-234): configuration and code checks, state parsing (a parse throw, a
failed exchange and a missing JWT secret all reach the same catch), token
exchange, and the signed session token reply echoing the state's
organization. -/
def handleOAuthCallback (env : OAuthEnv) (cfg : AuthConfig)
    (code state : Option String) (protocol host : String) :
    Except (Nat × String) CallbackResponse :=
  if !cfg.oauthEnabled || !optTruthy cfg.azureClientSecret || !optTruthy cfg.azureClientId then
    .error (501, "OAuth is not configured")
  else
    match code with
    | none => .error (400, "Authorization code not provided")
    | some c =>
      if c == "" then .error (400, "Authorization code not provided")
      else
        match
          (match state with
           | none => some none
           | some st => if st == "" then some none else parseStateOrganization st) with
        | none => .error (400, "Failed to exchange authorization code")
        | some organization =>
          match env.exchangeCodeForToken c (defaultCallbackUri protocol host)
              (cfg.azureClientId.getD "") (cfg.azureClientSecret.getD "") with
          | none => .error (400, "Failed to exchange authorization code")
          | some tr =>
            if !optTruthy cfg.jwtSecret then
              .error (400, "Failed to exchange authorization code")
            else
              .ok { token := env.sign
                      { sub := firstDotSegment tr.access_token,
                        accessToken := tr.access_token,
                        organization := organization,
                        iat := env.nowMs / 1000,
                        exp := env.nowMs / 1000 + tr.expires_in }
                      (cfg.jwtSecret.getD ""),
                    expires_in := tr.expires_in,
                    organization := organization }

/-! ## Claim C7 -/

theorem stateJson_beq_empty (org : String) : (stateJson org == "") = false := rfl

/-- C7: for every organization string, the authorization URL produced by the
initiation step ends in the encoded state payload serializing exactly that
organization; decoding the payload recovers the organization exactly; and
feeding the decoded state into the callback reproduces the organization in
the final response (under a lawful URI codec, an operational federated
configuration and a successful code exchange). -/
theorem c7_state_roundtrip (u : UriCodec) (env : OAuthEnv) (cfg : AuthConfig)
    (q : OAuthQuery) (protocol host org c : String) (tr : AzureTokenResponse)
    (hlaw : ∀ s, u.decode (u.encode s) = s)
    (hoauth : cfg.oauthEnabled = true)
    (hcid : optTruthy cfg.azureClientId = true)
    (hcsec : optTruthy cfg.azureClientSecret = true)
    (hjwt : optTruthy cfg.jwtSecret = true)
    (horg : q.organization = some org) (hne : org ≠ "")
    (hcode : c ≠ "")
    (hex : env.exchangeCodeForToken c (defaultCallbackUri protocol host)
      (cfg.azureClientId.getD "") (cfg.azureClientSecret.getD "") = some tr) :
    initiateOAuthFlow u cfg q protocol host =
        .ok (authUrlStem u cfg q protocol host ++ ("&state=" ++ u.encode (stateJson org))) ∧
      parseStateOrganization (u.decode (u.encode (stateJson org))) = some (some org) ∧
      handleOAuthCallback env cfg (some c) (some (u.decode (u.encode (stateJson org))))
          protocol host =
        .ok { token := env.sign
                { sub := firstDotSegment tr.access_token,
                  accessToken := tr.access_token,
                  organization := some org,
                  iat := env.nowMs / 1000,
                  exp := env.nowMs / 1000 + tr.expires_in }
                (cfg.jwtSecret.getD ""),
              expires_in := tr.expires_in,
              organization := some org } := by
  refine ⟨?_, ?_, ?_⟩
  · unfold initiateOAuthFlow
    rw [hoauth, horg]
    simp only [hcid, Bool.not_true, Bool.or_self, Bool.false_or, if_false]
    rw [if_neg (by simp_all)]
    simp [hne]
  · rw [hlaw]
    exact parseState_stateJson org
  · unfold handleOAuthCallback
    rw [hoauth]
    simp only [hcid, hcsec, Bool.not_true, Bool.or_self, Bool.false_or]
    rw [if_neg (by simp)]
    rw [hlaw]
    have hc : (c == "") = false := by
      simp [hcode]
    rw [hc]
    simp only [Bool.false_eq_true, if_false]
    rw [stateJson_beq_empty]
    simp only [Bool.false_eq_true, if_false]
    rw [parseState_stateJson]
    rw [hex]
    rw [hjwt]
    simp

def c7wCodec : UriCodec := { encode := fun s => s, decode := fun s => s }

def c7wTr : AzureTokenResponse :=
  { access_token := "at.rest", token_type := "bearer", expires_in := 3600, scope := "" }

def c7wEnv : OAuthEnv :=
  { exchangeCodeForToken := fun _ _ _ _ => some c7wTr,
    sign := fun _ _ => "signed", nowMs := 0 }

def c7wCfg : AuthConfig :=
  { patEnabled := false, oauthEnabled := true, jwtSecret := some ("jsec"),
    azureClientId := some ("cid"), azureClientSecret := some ("cs") }

def c7wQuery : OAuthQuery := { organization := some ("contoso"), redirect_uri := none }

/-- Witness for C7 at the identity codec and a concrete configuration,
organization and exchange environment. -/
theorem c7_witness :
    initiateOAuthFlow c7wCodec c7wCfg c7wQuery ("https") ("example.org") =
        .ok (authUrlStem c7wCodec c7wCfg c7wQuery ("https") ("example.org") ++
          ("&state=" ++ c7wCodec.encode (stateJson ("contoso")))) ∧
      parseStateOrganization (c7wCodec.decode (c7wCodec.encode (stateJson ("contoso")))) =
        some (some ("contoso")) ∧
      handleOAuthCallback c7wEnv c7wCfg (some ("thecode"))
          (some (c7wCodec.decode (c7wCodec.encode (stateJson ("contoso")))))
          ("https") ("example.org") =
        .ok { token := c7wEnv.sign
                { sub := firstDotSegment c7wTr.access_token,
                  accessToken := c7wTr.access_token,
                  organization := some ("contoso"),
                  iat := c7wEnv.nowMs / 1000,
                  exp := c7wEnv.nowMs / 1000 + c7wTr.expires_in }
                (c7wCfg.jwtSecret.getD ""),
              expires_in := c7wTr.expires_in,
              organization := some ("contoso") } :=
  c7_state_roundtrip c7wCodec c7wEnv c7wCfg c7wQuery ("https") ("example.org")
    ("contoso") ("thecode") c7wTr (fun _ => rfl) rfl rfl rfl rfl rfl
    (by decide) (by decide) rfl

end AzdoMcp
